import Mathlib

/-
Shallow embedding of morinlab/Process-Fastq, file ProDuSe/collapse.py.

Conventions of the embedding:
* Python strings are modelled as Lean String, or as List Char where the code
  manipulates them character by character (list(s), indexing).
* Python None/value optionals are Option; Python truthiness of an optional is
  made explicit (pyTruthyOptInt, pyTruthyOptStr).
* Exceptions and parser.error aborts are the PyErr type; a computation that can
  abort returns Except PyErr or Option paired with the abort.
* The filesystem is a parameter fs : String -> Bool giving os.path.isfile.
* External collaborators (fastq.FastqOpen, pysam, the alignment module) are
  modelled as emitted Event values; the body of main is the function runMain,
  which returns the list of collaborator events that happened before either a
  normal finish or an abort, together with the abort (if any).
* The for-loop over alignment collections is parameterised by the list of
  collection lengths (collection.length is the only attribute the loop reads).
-/

namespace Collapse

/-- Aborts that the embedded code can raise: parser.error calls (which exit),
a Python TypeError, and a Python IndexError. -/
inductive PyErr where
  | parserError (msg : String)
  | typeError
  | indexError
deriving DecidableEq, Repr

/-- Python truthiness of an optional integer, as in the test
`if not args.adapter_max_mismatch` on line 226: None and 0 are falsy. -/
def pyTruthyOptInt : Option Int → Bool
  | Option.none => false
  | some n => n != 0

/-- Python truthiness of an optional string, as in the tests
`if not args.adapter_sequence` (line 249) and `if args.family_plot`
(line 328): None and the empty string are falsy. -/
def pyTruthyOptStr : Option String → Bool
  | Option.none => false
  | some s => s != ""

/-- Python int(x) applied to an optional integer: int(None) raises TypeError
(line 301 evaluates int(args.adapter_max_mismatch)). -/
def pyIntOfOpt : Option Int → Except PyErr Int
  | Option.none => Except.error PyErr.typeError
  | some n => Except.ok n

/-- Lines 290-291: `strand_indexes = list(join([sp, sp]))` followed by
`strand_indexes = [i for i in range(len(strand_indexes)) if strand_indexes[i] == "1"]`.
The mask is doubled (mate 1 then mate 2) and the kept indices are those holding
the character 1. -/
def strand_indexes (sp : List Char) : List Nat :=
  (List.range (sp ++ sp).length).filter (fun i => (sp ++ sp).getD i 'x' == '1')

/-- Lines 293-294: identical construction for the duplex mask. -/
def duplex_indexes (dp : List Char) : List Nat :=
  (List.range (dp ++ dp).length).filter (fun i => (dp ++ dp).getD i 'x' == '1')

/-- CPython equality between an int and a str: int.__eq__ and str.__eq__ both
return NotImplemented across types, so `n == "1"` evaluates to False for every
integer n. Line 300 compares elements of the integer list strand_indexes
against the string "1". -/
def pyEqIntStr (_ : Nat) (_ : String) : Bool := false

/-- One list comprehension `[i for i in idxs if si[i] == "1"]` where si is a
list of integers: iterating left to right, indexing si out of bounds raises
IndexError (modelled as Option.none), and the int-vs-str comparison never
keeps an element. -/
def comprehensionFilter (si : List Nat) : List Nat → Option (List Nat)
  | [] => some []
  | i :: rest =>
    match si.get? i with
    | Option.none => Option.none
    | some v =>
      match comprehensionFilter si rest with
      | Option.none => Option.none
      | some acc => some (if pyEqIntStr v "1" then i :: acc else acc)

/-- Line 300: the adapter_position keyword argument
`[i for i in range(len(args.strand_position)) if strand_indexes[i] == "1"]`,
where strand_indexes is already the converted list of integer indices. -/
def adapter_position (sp : List Char) : Option (List Nat) :=
  comprehensionFilter (strand_indexes sp) (List.range sp.length)

/-- The parsed argument namespace of collapse.py (the shapes produced by the
command line parser declared on lines 43-148). Masks are kept as character
lists since the code manipulates them positionally. -/
structure Args where
  input : String
  reference : String
  output : List String
  strand_position : List Char
  duplex_position : List Char
  adapter_max_mismatch : Option Int
  strand_max_mismatch : Option Int
  duplex_max_mismatch : Int
  sequence_max_mismatch : Int
  adapter_sequence : Option String
  discard_chimeric_sequences : Bool
  original_output : Option (List String)
  family_plot : Option String
deriving Repr

/-- Lines 226-227: `if not args.adapter_max_mismatch:
args.adapter_max_mismatch = args.strand_max_mismatch`. -/
def applyFallback (a : Args) : Args :=
  if pyTruthyOptInt a.adapter_max_mismatch then a
  else { a with adapter_max_mismatch := a.strand_max_mismatch }

/-- Line 249: `if args.discard_chimeric_sequences and not args.adapter_sequence:
parser.error(...)`. -/
def discardCheck (a : Args) : Option PyErr :=
  if a.discard_chimeric_sequences ∧ pyTruthyOptStr a.adapter_sequence = false
  then some (PyErr.parserError "If --disarc_chimeric_sequences is specified, an --adapter_sequence must also be provided")
  else Option.none

/-- Lines 230-250: the startup checks of main, in source order. Indexing
args.original_output beyond its length raises IndexError (lines 243-247 index
positions 0 and 1 unconditionally). Returns the abort, if any; Option.none
means every check passed. -/
def startupChecks (a : Args) (fs : String → Bool) : Option PyErr :=
  if ¬ a.output.length = 2 then
    some (PyErr.parserError "--output must be specified exactly twice (i.e. -o file1.fastq -o file2.fastq)")
  else if ¬ a.duplex_position.length = a.strand_position.length then
    some (PyErr.parserError "duplex_position and strand_position must have same length")
  else if fs (a.output.getD 0 "") then
    some (PyErr.parserError "Output file already exists")
  else if fs (a.output.getD 1 "") then
    some (PyErr.parserError "Output file already exists")
  else
    match a.original_output with
    | some oo =>
      match oo.get? 0 with
      | Option.none => some PyErr.indexError
      | some f0 =>
        if fs f0 then some (PyErr.parserError "Original output file already exist")
        else
          match oo.get? 1 with
          | Option.none => some PyErr.indexError
          | some f1 =>
            if fs f1 then some (PyErr.parserError "Original output file already exist")
            else discardCheck a
    | Option.none => discardCheck a

/-- Calls into external collaborators made by main: opening an output fastq
(fastq.FastqOpen with mode w or wg, lines 262-263 and 279-280), opening the
input BAM and reference FASTA (lines 286-287), one
collection.adapter_table_average_consensus call per alignment collection
(lines 309-317, recording the collection length and the strand and duplex
index lists passed), and the final plot_molecule_families call (line 329,
recording the list it is handed). -/
inductive Event where
  | openFastq (path : String)
  | openBam (path : String)
  | openFasta (path : String)
  | consensusCall (len : Nat) (si di : List Nat)
  | plotCall (counts : List Nat)
deriving DecidableEq, Repr

/-- Recognises the event that delivers family counts to the plotting
collaborator. -/
def isPlotEvent : Event → Bool
  | Event.plotCall _ => true
  | _ => false

/-- Lines 252-287: after the checks pass, main opens the two standard output
fastqs, then (when configured) the two original output fastqs, then the BAM
and the reference FASTA. -/
def openEvents (a : Args) : List Event :=
  [Event.openFastq (a.output.getD 0 ""), Event.openFastq (a.output.getD 1 "")] ++
  (match a.original_output with
   | some oo => [Event.openFastq (oo.getD 0 ""), Event.openFastq (oo.getD 1 "")]
   | Option.none => []) ++
  [Event.openBam a.input, Event.openFasta a.reference]

/-- Lines 252-331 of main, entered once the startup checks passed, for the
namespace a (fallback already applied). Source order of the fallible steps:
line 292 evaluates join([args.adapter_sequence, args.adapter_sequence]), a
TypeError when adapter_sequence is None; the AlignmentCollectionCreate call
evaluates its keyword arguments in order, so the adapter_position
comprehension (line 300, possible IndexError) runs before
int(args.adapter_max_mismatch) (line 301, TypeError on None). The loop then
processes each collection, appending collection.length to family_abundances,
and line 328-329 hands the accumulated list to plot_molecule_families only
when family_plot is truthy. -/
def mainBody (a : Args) (cols : List Nat) : List Event × Option PyErr :=
  match a.adapter_sequence with
  | Option.none => (openEvents a, some PyErr.typeError)
  | some _ =>
    match adapter_position a.strand_position with
    | Option.none => (openEvents a, some PyErr.indexError)
    | some _ =>
      match pyIntOfOpt a.adapter_max_mismatch with
      | Except.error e => (openEvents a, some e)
      | Except.ok _ =>
        let si := strand_indexes a.strand_position
        let di := duplex_indexes a.duplex_position
        let loopEvents := cols.map (fun n => Event.consensusCall n si di)
        let family_abundances := cols
        if pyTruthyOptStr a.family_plot then
          (openEvents a ++ loopEvents ++ [Event.plotCall family_abundances], Option.none)
        else
          (openEvents a ++ loopEvents, Option.none)

/-- The body of main (lines 226-331) on an already-parsed namespace: apply the
adapter_max_mismatch fallback, run the startup checks (aborting with no
collaborator event if one fails), then run the opening, collection-processing
and plotting phase. -/
def runMain (a0 : Args) (fs : String → Bool) (cols : List Nat) : List Event × Option PyErr :=
  let a := applyFallback a0
  match startupChecks a fs with
  | some e => ([], some e)
  | Option.none => mainBody a cols

/-! ### Manual config-file parsing (lines 207-224)

When main is called with a pre-built namespace whose config field is set, the
options of the [config] section are read and written into vars(args) one by
one. A namespace is modelled extensionally as String -> Option PyVal. -/

/-- Python values a namespace entry can hold after the manual config merge. -/
inductive PyVal where
  | str (s : String)
  | list (l : List String)
deriving DecidableEq, Repr

/-- Lines 218-221: one option value read from the config file.
`param[0]` on an empty string raises IndexError; when the value is bracketed
on both ends it is converted with `param[1:-1].split(",")` (Python split on an
explicit separator, so splitting the empty string yields one empty piece),
otherwise the raw string is kept. -/
def convertParam (p : String) : Except PyErr PyVal :=
  if p.length = 0 then Except.error PyErr.indexError
  else if p.front = '[' ∧ p.back = ']' then
    Except.ok (PyVal.list (((p.drop 1).dropRight 1).splitOn ","))
  else Except.ok (PyVal.str p)

/-- Lines 217-224: iterate over the options of the [config] section in order
and assign `cmdArgs[option] = param` for each, converting bracketed values to
lists. An IndexError raised while converting a value aborts the whole run. -/
def applyConfig (ns : String → Option PyVal) : List (String × String) → Except PyErr (String → Option PyVal)
  | [] => Except.ok ns
  | (k, v) :: rest =>
    match convertParam v with
    | Except.error e => Except.error e
    | Except.ok pv => applyConfig (fun k2 => if k2 = k then some pv else ns k2) rest

/-! ### Spec-modelled clustering and consensus

The alignment module (imported on lines 16-21 and driving
AlignmentCollectionCreate and adapter_table_average_consensus) is not part of
the sources; the clustering and consensus algorithms below are modelled from
the specification, sections 4.2, 4.4 and 4.5. -/

/-- Modelled from the spec: one aligned read of the absent alignment module,
carrying the adapter fingerprint used for clustering, the aligned sequence and
the per-base quality. -/
structure ModelRead where
  fingerprint : List Char
  seq : List Char
  qual : List Char
deriving DecidableEq, Repr

/-- Modelled from the spec: the Adapter Distance Calculator (section 4.2) of
the absent alignment module; the count of mismatching positions among the
index positions flagged by the mask. -/
def fingerprintDistance (idx : List Nat) (a b : List Char) : Nat :=
  (idx.filter (fun i => ¬ a.getD i ' ' = b.getD i ' ')).length

/-- Modelled from the spec: one step of the greedy single-linkage Adapter
Cluster Builder (section 4.4) of the absent alignment module; scan the
existing classes in creation order and join the first whose representative is
within amm, otherwise open a new class. A class is its representative paired
with its member list. -/
def assignRead (amm : Nat) (idx : List Nat) (r : ModelRead) :
    List (ModelRead × List ModelRead) → List (ModelRead × List ModelRead)
  | [] => [(r, [r])]
  | (rep, mems) :: rest =>
    if fingerprintDistance idx rep.fingerprint r.fingerprint ≤ amm then
      (rep, mems ++ [r]) :: rest
    else
      (rep, mems) :: assignRead amm idx r rest

/-- Modelled from the spec: the Adapter Cluster Builder (section 4.4) of the
absent alignment module over one family, processing members in arrival
order. -/
def clusterFamily (amm : Nat) (idx : List Nat) (members : List ModelRead) :
    List (ModelRead × List ModelRead) :=
  members.foldl (fun classes r => assignRead amm idx r classes) []

/-- Modelled from the spec: the per-position vote of the Consensus Builder
(section 4.5) of the absent alignment module; the majority base, ties broken
by preferring the representative base. -/
def majorityBase (rep : Char) (bases : List Char) : Char :=
  let maxCount := (bases.map (fun b => bases.count b)).foldl max 0
  if bases.count rep = maxCount then rep
  else ((bases.find? (fun b => bases.count b = maxCount)).getD rep)

/-- Modelled from the spec: the consensus sequence of one molecule class
(section 4.5) of the absent alignment module; every position is the majority
base across the members, ties preferring the representative. -/
def consensusSeq (rep : List Char) (memberSeqs : List (List Char)) : List Char :=
  (List.range rep.length).map
    (fun p => majorityBase (rep.getD p ' ') (memberSeqs.map (fun m => m.getD p ' ')))

/-- Modelled from the spec: the consensus read of one molecule class; the
majority-vote sequence together with the representative quality (section 4.5
keeps a deterministic summary of member qualities, the representative one). -/
def consensusOfClass (c : ModelRead × List ModelRead) : List Char × List Char :=
  (consensusSeq c.1.seq ((c.2).map ModelRead.seq), c.1.qual)

/-- Modelled from the spec: the per-family pipeline of the absent alignment
module; cluster the members of each family, then build one consensus read per
molecule class. -/
def collapsePipeline (amm : Nat) (idx : List Nat) (families : List (List ModelRead)) :
    List (List (List Char × List Char)) :=
  families.map (fun mems => (clusterFamily amm idx mems).map consensusOfClass)

/-- The disjunction of the configuration-error conditions checked on lines
230-250: wrong output count, mask length mismatch, a pre-existing standard
output target, a pre-existing original output target, or discard_chimeric
without an adapter sequence. -/
def configErrorCond (a : Args) (fs : String → Bool) : Prop :=
  ¬ a.output.length = 2 ∨
  ¬ a.duplex_position.length = a.strand_position.length ∨
  fs (a.output.getD 0 "") = true ∨
  fs (a.output.getD 1 "") = true ∨
  (∃ oo f, a.original_output = some oo ∧
    (oo.get? 0 = some f ∨ oo.get? 1 = some f) ∧ fs f = true) ∨
  (a.discard_chimeric_sequences = true ∧ pyTruthyOptStr a.adapter_sequence = false)

/-- A concrete namespace whose options are all valid except that the optional
adapter_sequence was omitted. -/
def argsNoAdapter : Args :=
  { input := "in.bam", reference := "ref.fa",
    output := ["out1.fastq", "out2.fastq"],
    strand_position := ['1', '1'], duplex_position := ['1', '1'],
    adapter_max_mismatch := some 1, strand_max_mismatch := Option.none,
    duplex_max_mismatch := 1, sequence_max_mismatch := 20,
    adapter_sequence := Option.none, discard_chimeric_sequences := false,
    original_output := Option.none, family_plot := Option.none }

/-- A concrete fully valid namespace. -/
def argsBase : Args :=
  { argsNoAdapter with adapter_sequence := some "ACGT" }

/-- The valid namespace with the family_plot option set. -/
def argsPlot : Args :=
  { argsBase with family_plot := some "families.png" }

/-- The valid namespace with both masks set to the single character 0. -/
def argsZeroMask : Args :=
  { argsBase with strand_position := ['0'], duplex_position := ['0'] }

/-- The valid namespace with adapter_max_mismatch supplied as 0 and no legacy
strand_max_mismatch alias. -/
def argsAmmZero : Args :=
  { argsBase with adapter_max_mismatch := some 0 }

/-- The valid namespace with masks of different lengths. -/
def argsMaskMismatch : Args :=
  { argsBase with duplex_position := ['1'] }

/-- The namespace with discard_chimeric_sequences set but no
adapter_sequence. -/
def argsDiscard : Args :=
  { argsNoAdapter with discard_chimeric_sequences := true }

/-- One concrete family of two model reads, for evaluating the modelled
pipeline. -/
def demoFamilies : List (List ModelRead) :=
  [[{ fingerprint := ['A', 'A'], seq := ['A', 'C'], qual := ['I', 'I'] },
    { fingerprint := ['A', 'T'], seq := ['A', 'G'], qual := ['I', 'H'] }]]

/-! ## Helper lemmas -/

@[simp]
lemma applyFallback_input (a : Args) : (applyFallback a).input = a.input := by
  unfold applyFallback; split <;> rfl

@[simp]
lemma applyFallback_reference (a : Args) : (applyFallback a).reference = a.reference := by
  unfold applyFallback; split <;> rfl

@[simp]
lemma applyFallback_output (a : Args) : (applyFallback a).output = a.output := by
  unfold applyFallback; split <;> rfl

@[simp]
lemma applyFallback_strand_position (a : Args) :
    (applyFallback a).strand_position = a.strand_position := by
  unfold applyFallback; split <;> rfl

@[simp]
lemma applyFallback_duplex_position (a : Args) :
    (applyFallback a).duplex_position = a.duplex_position := by
  unfold applyFallback; split <;> rfl

@[simp]
lemma applyFallback_adapter_sequence (a : Args) :
    (applyFallback a).adapter_sequence = a.adapter_sequence := by
  unfold applyFallback; split <;> rfl

@[simp]
lemma applyFallback_discard (a : Args) :
    (applyFallback a).discard_chimeric_sequences = a.discard_chimeric_sequences := by
  unfold applyFallback; split <;> rfl

@[simp]
lemma applyFallback_original_output (a : Args) :
    (applyFallback a).original_output = a.original_output := by
  unfold applyFallback; split <;> rfl

@[simp]
lemma applyFallback_family_plot (a : Args) :
    (applyFallback a).family_plot = a.family_plot := by
  unfold applyFallback; split <;> rfl

/-- Inversion of a fully passing startup-check phase: every individual check
must have passed. -/
lemma startupChecks_none (a : Args) (fs : String → Bool)
    (h : startupChecks a fs = Option.none) :
    a.output.length = 2 ∧
    a.duplex_position.length = a.strand_position.length ∧
    fs (a.output.getD 0 "") = false ∧
    fs (a.output.getD 1 "") = false ∧
    (∀ oo, a.original_output = some oo →
      ∃ f0 f1, oo.get? 0 = some f0 ∧ fs f0 = false ∧
        oo.get? 1 = some f1 ∧ fs f1 = false) ∧
    ¬(a.discard_chimeric_sequences = true ∧ pyTruthyOptStr a.adapter_sequence = false) := by
  unfold startupChecks discardCheck at h
  repeat' split at h
  all_goals simp_all

/-- Every configuration-error condition makes runMain abort with no
collaborator event at all. -/
lemma runMain_aborts_of_configError (a : Args) (fs : String → Bool) (cols : List Nat)
    (h : configErrorCond a fs) :
    ∃ e, runMain a fs cols = ([], some e) := by
  cases hc : startupChecks (applyFallback a) fs with
  | some e => exact ⟨e, by simp [runMain, hc]⟩
  | none =>
    exfalso
    have inv := startupChecks_none (applyFallback a) fs hc
    simp only [applyFallback_output, applyFallback_strand_position,
      applyFallback_duplex_position, applyFallback_adapter_sequence,
      applyFallback_discard, applyFallback_original_output] at inv
    obtain ⟨h1, h2, h3, h4, h5, h6⟩ := inv
    rcases h with hA | hB | hC | hD | hE | hF
    · exact hA h1
    · exact hB h2
    · rw [h3] at hC; cases hC
    · rw [h4] at hD; cases hD
    · obtain ⟨oo, f, hoo, hget, hfs⟩ := hE
      obtain ⟨f0, f1, hg0, hf0, hg1, hf1⟩ := h5 oo hoo
      rcases hget with hg | hg
      · rw [hg0] at hg; cases hg; rw [hf0] at hfs; cases hfs
      · rw [hg1] at hg; cases hg; rw [hf1] at hfs; cases hfs
    · exact h6 hF

/-- A failing startup check aborts runMain with no event. -/
lemma runMain_eq_abort (a : Args) (fs : String → Bool) (cols : List Nat)
    (e : PyErr) (h : startupChecks (applyFallback a) fs = some e) :
    runMain a fs cols = ([], some e) := by
  simp only [runMain]
  rw [h]

/-- A passing startup-check phase hands control to the main body. -/
lemma runMain_eq_mainBody (a : Args) (fs : String → Bool) (cols : List Nat)
    (h : startupChecks (applyFallback a) fs = Option.none) :
    runMain a fs cols = mainBody (applyFallback a) cols := by
  simp only [runMain]
  rw [h]

/-- None of the file-opening events is a plotting delivery. -/
lemma isPlotEvent_openEvents (a : Args) : ∀ e ∈ openEvents a, isPlotEvent e = false := by
  intro e he
  cases hoo : a.original_output with
  | none =>
    simp [openEvents, hoo] at he
    rcases he with rfl | rfl | rfl | rfl <;> rfl
  | some oo =>
    simp [openEvents, hoo] at he
    rcases he with rfl | rfl | rfl | rfl | rfl | rfl <;> rfl

/-- The comprehension of line 300 either raises IndexError (when some index of
the iterated range is out of bounds for the integer list) or keeps nothing. -/
lemma comprehensionFilter_eq (si : List Nat) (l : List Nat) :
    comprehensionFilter si l =
      if ∀ i ∈ l, i < si.length then some [] else Option.none := by
  induction l with
  | nil => simp [comprehensionFilter]
  | cons i rest ih =>
    unfold comprehensionFilter
    cases hg : si.get? i with
    | none =>
      have hlen : ¬ i < si.length := by
        rw [List.get?_eq_none] at hg; omega
      simp [hlen]
    | some v =>
      have hlen : i < si.length := by
        rcases List.get?_eq_some.mp hg with ⟨hlt, _⟩
        exact hlt
      rw [ih]
      by_cases hrest : ∀ j ∈ rest, j < si.length
      · simp [hrest, hlen, pyEqIntStr]
        rw [if_pos hrest]
      · have : ¬ ∀ j ∈ i :: rest, j < si.length := by
          intro hall
          exact hrest (fun j hj => hall j (List.mem_cons_of_mem i hj))
        simp [hrest, this]

/-- Every element of range n is below m exactly when n is at most m. -/
lemma forall_range_lt (n m : Nat) : (∀ i ∈ List.range n, i < m) ↔ n ≤ m := by
  simp only [List.mem_range]
  constructor
  · intro h
    rcases Nat.eq_zero_or_pos n with h0 | h0
    · omega
    · have := h (n - 1) (by omega)
      omega
  · intro h i hi
    omega

/-- Converting a nonempty config value never raises. -/
lemma convertParam_isOk (v : String) (hv : ¬ v = "") :
    ∃ pv, convertParam v = Except.ok pv := by
  unfold convertParam
  have hlen : ¬ v.length = 0 := by
    intro h0
    apply hv
    cases v with
    | mk data =>
      simp [String.length] at h0
      simp [h0]
  rw [if_neg hlen]
  by_cases hb : v.front = '[' ∧ v.back = ']'
  · rw [if_pos hb]; exact ⟨_, rfl⟩
  · rw [if_neg hb]; exact ⟨_, rfl⟩

/-- With every config value nonempty, the manual merge loop finishes. -/
lemma applyConfig_ok (cfg : List (String × String)) (ns : String → Option PyVal)
    (hv : ∀ p ∈ cfg, ¬ p.2 = "") :
    ∃ ns2, applyConfig ns cfg = Except.ok ns2 := by
  induction cfg generalizing ns with
  | nil => exact ⟨ns, rfl⟩
  | cons kv rest ih =>
    obtain ⟨k0, v0⟩ := kv
    obtain ⟨pv0, hpv0⟩ := convertParam_isOk v0 (hv (k0, v0) (List.mem_cons_self _ _))
    obtain ⟨ns2, hns2⟩ := ih (fun k2 => if k2 = k0 then some pv0 else ns k2)
      (fun p hp => hv p (List.mem_cons_of_mem _ hp))
    exact ⟨ns2, by unfold applyConfig; rw [hpv0]; exact hns2⟩

/-- A key that no config option mentions keeps its namespace value across the
merge loop. -/
lemma applyConfig_preserve (cfg : List (String × String)) (ns : String → Option PyVal)
    (k : String) (hk : ∀ p ∈ cfg, ¬ p.1 = k) (ns2 : String → Option PyVal)
    (h : applyConfig ns cfg = Except.ok ns2) : ns2 k = ns k := by
  induction cfg generalizing ns with
  | nil =>
    unfold applyConfig at h
    cases h
    rfl
  | cons kv rest ih =>
    obtain ⟨k0, v0⟩ := kv
    unfold applyConfig at h
    cases hc : convertParam v0 with
    | error e => rw [hc] at h; cases h
    | ok pv =>
      rw [hc] at h
      have hrec := ih (fun k2 => if k2 = k0 then some pv else ns k2)
        (fun p hp => hk p (List.mem_cons_of_mem _ hp)) h
      rw [hrec]
      show (if k = k0 then some pv else ns k) = ns k
      rw [if_neg]
      intro hkk
      exact hk (k0, v0) (List.mem_cons_self _ _) (by rw [hkk])

/-! ## Claim theorems -/

/-- C1: contrary to the claim, a configuration that passes every startup check
but omits the optional adapter_sequence does not proceed normally; line 292
joins None with None and raises a TypeError after the output fastqs were
opened and before any record is processed. -/
theorem omitting_adapter_sequence_crashes :
    runMain argsNoAdapter (fun _ => false) [3] =
      ([Event.openFastq "out1.fastq", Event.openFastq "out2.fastq",
        Event.openBam "in.bam", Event.openFasta "ref.fa"],
       some PyErr.typeError) := by
  decide

/-- C2: every configuration-error condition of the startup checks makes the
run abort before any collaborator event: no output file is created and no
record is processed. -/
theorem configError_aborts_with_no_output (a : Args) (fs : String → Bool)
    (cols : List Nat) (h : configErrorCond a fs) :
    ∃ e, runMain a fs cols = ([], some e) :=
  runMain_aborts_of_configError a fs cols h

/-- C2 witness: a concrete mask-length mismatch aborts with no event. -/
theorem configError_aborts_with_no_output_witness :
    ∃ e, runMain argsMaskMismatch (fun _ => false) [4] = ([], some e) :=
  configError_aborts_with_no_output argsMaskMismatch (fun _ => false) [4]
    (Or.inr (Or.inl (by decide)))

/-- C5: a configuration with discard_chimeric_sequences set and a falsy
adapter_sequence always aborts during the startup checks, before any
collaborator event. -/
theorem discard_without_adapter_aborts (a : Args) (fs : String → Bool)
    (cols : List Nat)
    (hd : a.discard_chimeric_sequences = true)
    (ha : pyTruthyOptStr a.adapter_sequence = false) :
    ∃ e, runMain a fs cols = ([], some e) :=
  runMain_aborts_of_configError a fs cols
    (Or.inr (Or.inr (Or.inr (Or.inr (Or.inr ⟨hd, ha⟩)))))

/-- C5 witness: the concrete discard-without-adapter namespace aborts with no
event. -/
theorem discard_without_adapter_aborts_witness :
    ∃ e, runMain argsDiscard (fun _ => false) [] = ([], some e) :=
  discard_without_adapter_aborts argsDiscard (fun _ => false) []
    (by decide) (by decide)

/-- C6: masks of different lengths always abort during the startup checks,
before any collaborator event. -/
theorem mask_mismatch_aborts (a : Args) (fs : String → Bool) (cols : List Nat)
    (h : ¬ a.duplex_position.length = a.strand_position.length) :
    ∃ e, runMain a fs cols = ([], some e) :=
  runMain_aborts_of_configError a fs cols (Or.inr (Or.inl h))

/-- C6 witness: a concrete one-versus-two mask mismatch aborts with no
event. -/
theorem mask_mismatch_aborts_witness :
    ∃ e, runMain argsMaskMismatch (fun _ => true) [] = ([], some e) :=
  mask_mismatch_aborts argsMaskMismatch (fun _ => true) [] (by decide)

/-- C4: an index is in the strand (or duplex) comparison index list exactly
when it is a position of the mask concatenated with itself that holds the
character 1. -/
theorem index_sets_from_doubled_mask (sp dp : List Char) (i : Nat) :
    (i ∈ strand_indexes sp ↔ i < (sp ++ sp).length ∧ (sp ++ sp).getD i 'x' = '1') ∧
    (i ∈ duplex_indexes dp ↔ i < (dp ++ dp).length ∧ (dp ++ dp).getD i 'x' = '1') := by
  constructor <;>
    simp [strand_indexes, duplex_indexes, List.mem_filter, List.mem_range]

/-- C3 counterexample: with family_plot configured and two processed families,
no delivery to the plotting collaborator happens between families; the single
delivery comes after both consensus calls and carries the buffered counts of
both families, including the first one. -/
theorem family_report_counterexample :
    runMain argsPlot (fun _ => false) [3, 5] =
      ([Event.openFastq "out1.fastq", Event.openFastq "out2.fastq",
        Event.openBam "in.bam", Event.openFasta "ref.fa",
        Event.consensusCall 3 [0, 1, 2, 3] [0, 1, 2, 3],
        Event.consensusCall 5 [0, 1, 2, 3] [0, 1, 2, 3],
        Event.plotCall [3, 5]], Option.none) ∧
    (runMain argsPlot (fun _ => false) [3, 5]).1.filter isPlotEvent =
      [Event.plotCall [3, 5]] := by
  constructor <;> decide

/-- C3 amended: on every completed run with family_plot set, the family counts
are accumulated in memory and delivered to the plotting collaborator in one
single final call carrying the whole history; no earlier event is a plotting
delivery. -/
theorem family_sizes_buffered_delivered_once (a : Args) (fs : String → Bool)
    (cols : List Nat)
    (hdone : (runMain a fs cols).2 = Option.none)
    (hplot : pyTruthyOptStr a.family_plot = true) :
    ∃ pre, (runMain a fs cols).1 = pre ++ [Event.plotCall cols] ∧
      ∀ e ∈ pre, isPlotEvent e = false := by
  cases hc : startupChecks (applyFallback a) fs with
  | some e =>
    rw [runMain_eq_abort a fs cols e hc] at hdone
    cases hdone
  | none =>
    rw [runMain_eq_mainBody a fs cols hc] at hdone ⊢
    cases has : a.adapter_sequence with
    | none => simp [mainBody, has] at hdone
    | some s =>
      cases hap : adapter_position a.strand_position with
      | none => simp [mainBody, has, hap] at hdone
      | some l =>
        cases hamm : pyIntOfOpt (applyFallback a).adapter_max_mismatch with
        | error e => simp [mainBody, has, hap, hamm] at hdone
        | ok n =>
          refine ⟨openEvents (applyFallback a) ++
            cols.map (fun m => Event.consensusCall m
              (strand_indexes a.strand_position)
              (duplex_indexes a.duplex_position)), ?_, ?_⟩
          · simp [mainBody, has, hap, hamm, hplot, List.append_assoc]
          · intro e he
            rcases List.mem_append.mp he with hop | hcc
            · exact isPlotEvent_openEvents _ e hop
            · obtain ⟨m, _, rfl⟩ := List.mem_map.mp hcc
              rfl

/-- C3 amended witness: one completed single-family run delivers its count in
the one final plotting call. -/
theorem family_sizes_buffered_delivered_once_witness :
    ∃ pre, (runMain argsPlot (fun _ => false) [7]).1 = pre ++ [Event.plotCall [7]] ∧
      ∀ e ∈ pre, isPlotEvent e = false :=
  family_sizes_buffered_delivered_once argsPlot (fun _ => false) [7]
    (by decide) (by decide)

/-- C7: two runs of the modelled clustering and consensus pipeline on equal
inputs under the same configuration produce equal class assignments and equal
consensus output. -/
theorem pipeline_deterministic (amm : Nat) (idx : List Nat)
    (fams1 fams2 : List (List ModelRead)) (h : fams1 = fams2) :
    fams1.map (clusterFamily amm idx) = fams2.map (clusterFamily amm idx) ∧
    collapsePipeline amm idx fams1 = collapsePipeline amm idx fams2 := by
  subst h
  exact ⟨rfl, rfl⟩

/-- C7 witness: determinism applied to the concrete demo family. -/
theorem pipeline_deterministic_witness :
    demoFamilies.map (clusterFamily 1 [0, 1]) =
      demoFamilies.map (clusterFamily 1 [0, 1]) ∧
    collapsePipeline 1 [0, 1] demoFamilies =
      collapsePipeline 1 [0, 1] demoFamilies :=
  pipeline_deterministic 1 [0, 1] demoFamilies demoFamilies rfl

/-- C8 counterexample: with the strand mask 0 the comprehension of line 300
raises IndexError instead of producing the empty list, and the run aborts
after the files are opened, so the empty list is not passed to the
collaborator for every configuration. -/
theorem adapter_position_counterexample :
    ¬ adapter_position ['0'] = some [] ∧
    adapter_position ['0'] = Option.none ∧
    (runMain argsZeroMask (fun _ => false) [2]).2 = some PyErr.indexError := by
  refine ⟨by decide, by decide, by decide⟩

/-- C8 amended: the adapter_position argument is the empty list exactly when
the doubled-mask index list covers range(len(strand_position)), that is when
the mask length is at most twice the count of 1 characters; otherwise the
comprehension raises IndexError. -/
theorem adapter_position_empty_or_indexError (sp : List Char) :
    adapter_position sp =
      if sp.length ≤ (strand_indexes sp).length then some [] else Option.none := by
  unfold adapter_position
  rw [comprehensionFilter_eq]
  simp only [forall_range_lt]

/-- C9: supplying adapter_max_mismatch as 0 with no legacy alias makes the
falsy fallback of line 226 overwrite it with None, and a run that reaches the
collection-creator construction aborts there with a TypeError at
int(args.adapter_max_mismatch), before processing any collection, instead of
clustering with threshold 0. -/
theorem amm_zero_becomes_none_and_crashes (a : Args) (fs : String → Bool)
    (cols : List Nat)
    (h0 : a.adapter_max_mismatch = some 0)
    (h1 : a.strand_max_mismatch = Option.none)
    (hchk : startupChecks (applyFallback a) fs = Option.none)
    (has : ¬ a.adapter_sequence = Option.none)
    (hap : ¬ adapter_position a.strand_position = Option.none) :
    (applyFallback a).adapter_max_mismatch = Option.none ∧
    runMain a fs cols = (openEvents (applyFallback a), some PyErr.typeError) := by
  have hfb : (applyFallback a).adapter_max_mismatch = Option.none := by
    unfold applyFallback
    rw [h0]
    simp [pyTruthyOptInt, h1]
  refine ⟨hfb, ?_⟩
  rw [runMain_eq_mainBody a fs cols hchk]
  cases hs : a.adapter_sequence with
  | none => exact absurd hs has
  | some s =>
    cases hp : adapter_position a.strand_position with
    | none => exact absurd hp hap
    | some l =>
      simp [mainBody, hs, hp, hfb, pyIntOfOpt]

/-- C9 witness: the concrete namespace with adapter_max_mismatch 0 loses the
threshold and aborts with a TypeError. -/
theorem amm_zero_becomes_none_and_crashes_witness :
    (applyFallback argsAmmZero).adapter_max_mismatch = Option.none ∧
    runMain argsAmmZero (fun _ => false) [1] =
      (openEvents (applyFallback argsAmmZero), some PyErr.typeError) :=
  amm_zero_becomes_none_and_crashes argsAmmZero (fun _ => false) [1]
    rfl rfl (by decide) (by decide) (by decide)

/-- C10 counterexample: an option present in the [config] section with an
empty value does not overwrite the namespace; converting it raises IndexError
on param[0] and the merge aborts. -/
theorem config_empty_value_does_not_override :
    ("input", "") ∈ ([("input", "")] : List (String × String)) ∧
    applyConfig (fun _ => Option.none) [("input", "")] =
      Except.error PyErr.indexError := by
  constructor
  · exact List.mem_cons_self _ _
  · rfl

/-- C10 amended: when the [config] section options are distinct and every
value is nonempty, the merge loop finishes and each option ends up mapped to
the converted config value, superseding whatever the namespace held. -/
theorem config_supersedes_namespace (ns : String → Option PyVal)
    (cfg : List (String × String))
    (hnd : (cfg.map Prod.fst).Nodup)
    (hv : ∀ p ∈ cfg, ¬ p.2 = "")
    (k v : String) (hmem : (k, v) ∈ cfg) :
    ∃ ns2 pv, applyConfig ns cfg = Except.ok ns2 ∧
      convertParam v = Except.ok pv ∧ ns2 k = some pv := by
  induction cfg generalizing ns with
  | nil => cases hmem
  | cons kv rest ih =>
    obtain ⟨k0, v0⟩ := kv
    obtain ⟨pv0, hpv0⟩ := convertParam_isOk v0 (hv (k0, v0) (List.mem_cons_self _ _))
    rw [List.map_cons, List.nodup_cons] at hnd
    rcases List.mem_cons.mp hmem with heq | hmemr
    · injection heq with hk hv0
      subst hk
      subst hv0
      obtain ⟨ns2, hns2⟩ := applyConfig_ok rest
        (fun k2 => if k2 = k then some pv0 else ns k2)
        (fun p hp => hv p (List.mem_cons_of_mem _ hp))
      refine ⟨ns2, pv0, ?_, hpv0, ?_⟩
      · unfold applyConfig
        rw [hpv0]
        exact hns2
      · have hpres := applyConfig_preserve rest
          (fun k2 => if k2 = k then some pv0 else ns k2) k
          (fun p hp hpk => hnd.1 (List.mem_map.mpr ⟨p, hp, hpk⟩))
          ns2 hns2
        rw [hpres]
        show (if k = k then some pv0 else ns k) = some pv0
        rw [if_pos rfl]
    · obtain ⟨ns2, pv, hok, hcv, hns2⟩ := ih
        (fun k2 => if k2 = k0 then some pv0 else ns k2)
        hnd.2 (fun p hp => hv p (List.mem_cons_of_mem _ hp)) hmemr
      refine ⟨ns2, pv, ?_, hcv, hns2⟩
      unfold applyConfig
      rw [hpv0]
      exact hok

/-- C10 amended witness: a concrete nonempty config option supersedes the
caller-supplied namespace value. -/
theorem config_supersedes_namespace_witness :
    ∃ ns2 pv, applyConfig (fun _ => some (PyVal.str "cli.bam")) [("input", "cfg.bam")] =
        Except.ok ns2 ∧
      convertParam "cfg.bam" = Except.ok pv ∧ ns2 "input" = some pv :=
  config_supersedes_namespace (fun _ => some (PyVal.str "cli.bam"))
    [("input", "cfg.bam")] (by decide) (by decide) "input" "cfg.bam"
    (List.mem_cons_self _ _)

end Collapse
